import Mathlib

/-!
# Verification of the rawERP_dumps_to_excel conversion pipeline

Shallow embedding of `converter.py`: the encoding-detection fallback, the
content classifier, the regex-based markup table extractor, the delimiter
inferencer, the pandas CSV-parsing layer it relies on, and the per-file
conversion orchestrator.  Python strings are modelled as `List Char` /
`String`, machine text operations are spelled out as executable functions,
and every fallible step of the orchestrator is an explicit `Except` /
`Option` value.
-/

namespace Converter

/-! ## Basic text utilities (ASCII fragment of Python `str` operations) -/

/-- ASCII lower-casing of one character.  Models Python `str.lower` and
`re.IGNORECASE` for the ASCII range, which is all the scanner's tag literals
use. -/
def lowerChar (c : Char) : Char :=
  if 'A' ≤ c ∧ c ≤ 'Z' then Char.ofNat (c.toNat + 32) else c

/-- Lower-case a character list. -/
def listLower (s : List Char) : List Char := s.map lowerChar

/-- ASCII upper-casing of one character (Python `str.upper` for the ASCII
range, which is all the format strings use). -/
def upperChar (c : Char) : Char :=
  if 'a' ≤ c ∧ c ≤ 'z' then Char.ofNat (c.toNat - 32) else c

/-- Python `str.upper` on a string. -/
def pyUpper (s : String) : String := String.mk (s.data.map upperChar)

/-- Python `\s` for the ASCII range (space, tab, newline, carriage return,
vertical tab, form feed). -/
def isPyWs (c : Char) : Bool :=
  c = ' ' ∨ c = '\t' ∨ c = '\n' ∨ c = '\r' ∨ c = '\x0b' ∨ c = '\x0c'

/-- If some needle of `needles` (tried in order) is a prefix of `hay`,
return its length. -/
def matchLenAt (needles : List (List Char)) (hay : List Char) : Option Nat :=
  needles.findSome? (fun n => if n.isPrefixOf hay then some n.length else none)

/-- Index of the first position of `hay` at which one of `needles` occurs,
together with the length of the needle that matched there.  Models the
leftmost-match rule of `str.find` / `re` scanning. -/
def findAnyIdx (needles : List (List Char)) : List Char → Option (Nat × Nat)
  | [] =>
    match matchLenAt needles [] with
    | some l => some (0, l)
    | none => none
  | c :: t =>
    match matchLenAt needles (c :: t) with
    | some l => some (0, l)
    | none => (findAnyIdx needles (t)).map (fun p => (p.1 + 1, p.2))

/-- Python `str.count` for a non-empty needle: number of non-overlapping
occurrences, scanning left to right; `fuel` bounds the recursion and one
unit per consumed character suffices.  (Python's `"".count` edge case of an
empty needle is irrelevant here: the source only counts single characters.) -/
def pyStrCountFuel (needle : List Char) : Nat → List Char → Nat
  | 0, _ => 0
  | fuel + 1, hay =>
    if needle ≠ [] ∧ needle.isPrefixOf hay ∧ hay ≠ [] then
      1 + pyStrCountFuel needle fuel (hay.drop needle.length)
    else
      match hay with
      | [] => 0
      | _ :: t => pyStrCountFuel needle fuel t

def pyStrCount (needle : List Char) (hay : List Char) : Nat :=
  pyStrCountFuel needle (hay.length + 1) hay

/-- Python `str.split('\n')`: split on every newline, keeping empty pieces
(so the empty string yields one empty line). -/
def splitOnNl : List Char → List (List Char)
  | [] => [[]]
  | c :: t =>
    if c = '\n' then [] :: splitOnNl t
    else
      match splitOnNl t with
      | [] => [[c]]
      | l :: ls => (c :: l) :: ls

/-! ## Markup scanning (the `re.findall` patterns of `simple_html_table_to_df`)

Each pattern in the source has the shape `OPEN.*?>(.*?)CLOSE` with
`re.DOTALL | re.IGNORECASE`: a literal opening tag prefix, a lazy skip to the
nearest `>`, a lazy capture up to the nearest closing tag.  `re.findall` of
such a pattern is exactly: find the leftmost opening prefix, then the nearest
`>` after it, then the nearest closing tag after that, emit the capture and
continue after the closing tag.  (If the nearest `>` after the leftmost
opening prefix has no closing tag after it, no later start can match either,
since its search space is a subset, so the scan stops.) -/

/-- One scanning pass for a `OPEN.*?>(.*?)CLOSE` pattern, case-insensitive
(the needle lists must be given in lower case); captured spans keep their
original case.  `fuel` bounds the recursion; one unit per emitted match
suffices since every step consumes at least one character. -/
def spanScan (opens closes : List (List Char)) : Nat → List Char → List (List Char)
  | 0, _ => []
  | fuel + 1, s =>
    match findAnyIdx opens (listLower s) with
    | none => []
    | some (i, olen) =>
      let rest := s.drop (i + olen)
      match findAnyIdx [['>']] rest with
      | none => []
      | some (j, _) =>
        let rest2 := rest.drop (j + 1)
        match findAnyIdx closes (listLower rest2) with
        | none => []
        | some (k, clen) =>
          rest2.take k :: spanScan opens closes fuel (rest2.drop (k + clen))

/-- `re.findall(r'OPEN.*?>(.*?)CLOSE', s, re.DOTALL | re.IGNORECASE)` for the
tag-span patterns of the source. -/
def spanFindall (opens closes : List (List Char)) (s : List Char) : List (List Char) :=
  spanScan opens closes (s.length + 1) s

/-- `re.findall(r'<table.*?>(.*?)</table>', ...)` (line 47 of the source). -/
def tableSpans (s : List Char) : List (List Char) :=
  spanFindall [['<', 't', 'a', 'b', 'l', 'e']]
    [['<', '/', 't', 'a', 'b', 'l', 'e', '>']] s

/-- `re.findall(r'<tr.*?>(.*?)</tr>', ...)` (line 53 of the source). -/
def trSpans (s : List Char) : List (List Char) :=
  spanFindall [['<', 't', 'r']] [['<', '/', 't', 'r', '>']] s

/-- `re.findall(r'<t[dh].*?>(.*?)</t[dh]>', ...)` (line 57 of the source).
The opening and closing alternatives are independent, exactly as in the
regex. -/
def cellSpans (s : List Char) : List (List Char) :=
  spanFindall [['<', 't', 'd'], ['<', 't', 'h']]
    [['<', '/', 't', 'd', '>'], ['<', '/', 't', 'h', '>']] s

/-- `re.sub(r'<.*?>', '', s)` (line 62 of the source): delete every span from
a `<` to the nearest following `>`; a `<` with no `>` after it matches
nothing, and then no later `<` can match either. -/
def removeTagsFuel : Nat → List Char → List Char
  | 0, s => s
  | fuel + 1, s =>
    match findAnyIdx [['<']] s with
    | none => s
    | some (i, _) =>
      let rest := s.drop (i + 1)
      match findAnyIdx [['>']] rest with
      | none => s
      | some (j, _) => s.take i ++ removeTagsFuel fuel (rest.drop (j + 1))

def removeTags (s : List Char) : List Char := removeTagsFuel (s.length + 1) s

/-- `re.sub(r'\s+', ' ', s)`: collapse every maximal run of whitespace to a
single space.  `prevWs` records whether the previous character was part of a
whitespace run. -/
def collapseWsAux (prevWs : Bool) : List Char → List Char
  | [] => []
  | c :: t =>
    if isPyWs c then
      if prevWs then collapseWsAux true t else ' ' :: collapseWsAux true t
    else c :: collapseWsAux false t

def collapseWs (s : List Char) : List Char := collapseWsAux false s

/-- Python `str.strip()`: drop leading and trailing whitespace. -/
def stripWs (s : List Char) : List Char :=
  ((s.dropWhile isPyWs).reverse.dropWhile isPyWs).reverse

/-- Cell cleaning of lines 62-64 of the source: strip remaining tags,
collapse whitespace runs, trim the ends. -/
def cleanCell (s : List Char) : List Char := stripWs (collapseWs (removeTags s))

/-! ## `html.unescape`

Modelled for the common entity forms: the core named references (with and,
where HTML5 allows it, without the trailing semicolon) and decimal
numeric references.  Text containing no `&` — which is all the markup the
claims exercise — is left unchanged, exactly as by `html.unescape`. -/

/-- Named entity table, longest names first at equal prefixes. -/
def namedEntities : List (List Char × Char) :=
  [(['a', 'm', 'p', ';'], '&'), (['l', 't', ';'], '<'), (['g', 't', ';'], '>'),
   (['q', 'u', 'o', 't', ';'], '"'), (['a', 'p', 'o', 's', ';'], '\''),
   (['n', 'b', 's', 'p', ';'], ' '),
   (['a', 'm', 'p'], '&'), (['l', 't'], '<'), (['g', 't'], '>'),
   (['q', 'u', 'o', 't'], '"')]

/-- Decode a decimal numeric reference body `digits;` at the head of `s`. -/
def decDigits : List Char → Nat → Option (Nat × List Char)
  | [], _ => none
  | c :: t, acc =>
    if c = ';' then some (acc, t)
    else if c.isDigit then decDigits t (acc * 10 + (c.toNat - '0'.toNat))
    else none

/-- Try to decode one character reference right after a `&`; returns the
replacement and the rest of the input. -/
def matchEntity (s : List Char) : Option (Char × List Char) :=
  match s with
  | '#' :: t =>
    if (t.head?.map Char.isDigit).getD false then
      match decDigits t 0 with
      | some (n, rest) => if n.isValidChar then some (Char.ofNat n, rest) else none
      | none => none
    else none
  | _ =>
    namedEntities.findSome? (fun p =>
      if p.1.isPrefixOf s then some (p.2, s.drop p.1.length) else none)

def unescapeFuel : Nat → List Char → List Char
  | 0, s => s
  | _ + 1, [] => []
  | fuel + 1, c :: t =>
    if c = '&' then
      match matchEntity t with
      | some (r, rest) => r :: unescapeFuel fuel rest
      | none => '&' :: unescapeFuel fuel t
    else c :: unescapeFuel fuel t

/-- `html.unescape` (line 44 of the source), modelled as above. -/
def unescape (s : List Char) : List Char := unescapeFuel (s.length + 1) s


/-! ## Table Builder (lines 74-75 of the source) -/

/-- `max(len(row) for row in rows)` for a non-empty `rows` (Python raises on
an empty generator; the call site guards with `if rows:`).  On the empty list
this fold returns `0`. -/
def maxRowLen (rows : List (List String)) : Nat :=
  (rows.map List.length).foldl Nat.max 0

/-- `row + [''] * (max_cols - len(row))` (line 75 of the source). -/
def padRow (maxCols : Nat) (row : List String) : List String :=
  row ++ List.replicate (maxCols - row.length) ""

/-- `padded_rows = [row + [''] * (max_cols - len(row)) for row in rows]`
with `max_cols = max(len(row) for row in rows)` (lines 74-75). -/
def padRows (rows : List (List String)) : List (List String) :=
  rows.map (padRow (maxRowLen rows))

/-! ## Pandas data model

A pandas cell is a string, an inferred integer, or the missing-value marker
`NaN`; a DataFrame built by this program is a rectangular list of such
cells with columns labelled `0, 1, ...`. -/

inductive Cell where
  | str : String → Cell
  | int : Int → Cell
  | nan : Cell
deriving DecidableEq, Repr

/-- Width (column count) of a DataFrame given by its rows: pandas pads
ragged list input to the longest row, so the column count is the maximum
row length. -/
def tableWidth (t : List (List Cell)) : Nat :=
  (t.map List.length).foldl Nat.max 0

/-- `pd.concat(all_tables, ignore_index=True)` (line 81 of the source) for
DataFrames whose columns are `0 .. width-1`: the result's columns are the
union `0 .. max width - 1`, rows are stacked in order, and entries of a row
in a column its own frame does not have are filled with `NaN`. -/
def concatWidth (tables : List (List (List Cell))) : Nat :=
  (tables.map tableWidth).foldl Nat.max 0

def pdConcat (tables : List (List (List Cell))) : List (List Cell) :=
  (tables.map (fun t =>
    t.map (fun r => r ++ List.replicate (concatWidth tables - r.length) Cell.nan))).flatten

/-! ## Markup Table Extractor (`simple_html_table_to_df`, lines 41-82) -/

/-- Lines 53-68 of the source: the kept rows of one table span — for each
`<tr>` span its cleaned `<td>/<th>` cells, dropping rows with no cells. -/
def tableRows (t : List Char) : List (List String) :=
  (trSpans t).filterMap (fun r =>
    let cells := (cellSpans r).map (fun c => String.mk (cleanCell c))
    if cells.isEmpty then none else some cells)

/-- Lines 50-78 of the source: the per-table DataFrames (`all_tables`),
as string cells.  A table with no kept row is dropped; `max_cols` padding
uses the empty string.  (The `try/except` around the DataFrame construction
cannot fire: `max` and `pd.DataFrame` do not raise on a non-empty list of
string lists.) -/
def keptTablesOf (content : String) : List (List (List Cell)) :=
  (tableSpans (unescape content.data)).filterMap (fun t =>
    let rows := tableRows t
    if rows.isEmpty then none
    else some ((padRows rows).map (List.map Cell.str)))

/-- `simple_html_table_to_df` (lines 41-82): unescape, extract and pad each
table, and concatenate all kept tables; `None` when no table yielded a
row. -/
def simple_html_table_to_df (content : String) : Option (List (List Cell)) :=
  let all_tables := keptTablesOf content
  if all_tables.isEmpty then none else some (pdConcat all_tables)

/-! ## Delimiter Inferencer (lines 117-124 of the source) -/

/-- The keys of `delimiter_counts` in insertion order. -/
def delimCandidates : List Char := [',', ';', '\t', '|']

/-- Total occurrences of delimiter `d` over the first 100 lines
(`content.split('\n')[:100]`, then `line.count(delim)` summed). -/
def delimCount (content : String) (d : Char) : Nat :=
  ((splitOnNl content.data).take 100).foldl (fun acc line => acc + pyStrCount [d] line) 0

/-- `max(delimiter_counts, key=delimiter_counts.get)` (line 124): Python's
`max` keeps the first key and replaces it only on a strictly greater count,
so on ties the earlier key in `delimCandidates` wins. -/
def inferDelimiter (content : String) : Char :=
  [';', '\t', '|'].foldl
    (fun best d => if delimCount content best < delimCount content d then d else best) ','

/-! ## Pandas CSV parsing (`pd.read_csv(..., header=None, engine='python',
on_bad_lines='skip')`, lines 127-128)

The python engine tokenizes with `csv.reader` (default dialect: quote
character `"`, doubled quotes, no escape character, non-strict), skips blank
records, takes the column count from the first record, skips records with
more fields than that (`on_bad_lines='skip'`), pads shorter records with
`NaN`, converts the default NA markers (the empty field among them) to
`NaN`, and converts a column to integers when every non-missing entry is an
integer literal. -/

inductive CsvState where
  | startField | inField | inQuoted | quoteInQuoted

/-- Finish the current record (fields and the current field are accumulated
in reverse). -/
def csvEmit (field : List Char) (fields : List String) : List String :=
  ((String.mk field.reverse) :: fields).reverse

/-- The `csv.reader` state machine over the remaining characters. -/
def csvTokRun (delim : Char) :
    List Char → CsvState → List Char → List String → List (List String) →
    List (List String)
  | [], st, field, fields, recs =>
    match st, fields, field with
    | .startField, [], [] => recs.reverse
    | _, _, _ => (csvEmit field fields :: recs).reverse
  | c :: t, .startField, field, fields, recs =>
    if c = '"' then csvTokRun delim t .inQuoted field fields recs
    else if c = delim then csvTokRun delim t .startField [] (String.mk field.reverse :: fields) recs
    else if c = '\n' then
      if fields.isEmpty then csvTokRun delim t .startField [] [] ([] :: recs)
      else csvTokRun delim t .startField [] [] (csvEmit field fields :: recs)
    else csvTokRun delim t .inField (c :: field) fields recs
  | c :: t, .inField, field, fields, recs =>
    if c = delim then csvTokRun delim t .startField [] (String.mk field.reverse :: fields) recs
    else if c = '\n' then csvTokRun delim t .startField [] [] (csvEmit field fields :: recs)
    else csvTokRun delim t .inField (c :: field) fields recs
  | c :: t, .inQuoted, field, fields, recs =>
    if c = '"' then csvTokRun delim t .quoteInQuoted field fields recs
    else csvTokRun delim t .inQuoted (c :: field) fields recs
  | c :: t, .quoteInQuoted, field, fields, recs =>
    if c = '"' then csvTokRun delim t .inQuoted ('"' :: field) fields recs
    else if c = delim then csvTokRun delim t .startField [] (String.mk field.reverse :: fields) recs
    else if c = '\n' then csvTokRun delim t .startField [] [] (csvEmit field fields :: recs)
    else csvTokRun delim t .inField (c :: field) fields recs

/-- `csv.reader` with delimiter `delim` over the whole text: the list of
records, a record being a list of fields; an empty line yields the empty
record. -/
def csvTokenize (delim : Char) (s : List Char) : List (List String) :=
  csvTokRun delim s .startField [] [] []

/-- Pandas' default NA markers (`pandas.io.parsers` `STR_NA_VALUES`). -/
def pdDefaultNA : List String :=
  ["", "#N/A", "#N/A N/A", "#NA", "-1.#IND", "-1.#QNAN", "-NaN", "-nan",
   "1.#IND", "1.#QNAN", "<NA>", "N/A", "NA", "NULL", "NaN", "None",
   "n/a", "nan", "null"]

/-- A raw field to a cell: default NA markers become `NaN`. -/
def naConvert (s : String) : Cell :=
  if pdDefaultNA.contains s then Cell.nan else Cell.str s

/-- An optionally `-`-signed non-empty digit string (the integer literals
pandas' type inference converts; the model omits floats, which none of the
inputs in the claims produce). -/
def isIntStr (s : String) : Bool :=
  match s.data with
  | '-' :: t => ¬ t.isEmpty ∧ t.all Char.isDigit
  | t => ¬ t.isEmpty ∧ t.all Char.isDigit

def cellToInt : Cell → Cell
  | Cell.str s => Cell.int (s.toInt?.getD 0)
  | c => c

/-- Column-wise integer inference: a column all of whose non-missing entries
are integer literals is converted to integers. -/
def inferColumns (rows : List (List Cell)) : List (List Cell) :=
  let convert : Nat → Bool := fun j =>
    (rows.filterMap (fun r => r[j]?)).all (fun c =>
      match c with
      | Cell.nan => true
      | Cell.int _ => true
      | Cell.str s => isIntStr s)
  rows.map (fun r => r.mapIdx (fun j c => if convert j then cellToInt c else c))

/-- `pd.read_csv(StringIO(content), delimiter=delimiter, header=None,
engine='python', on_bad_lines='skip')` (lines 127-128), as described in the
section header.  With no records at all pandas raises
`EmptyDataError('No columns to parse from file')`. -/
def read_csv (content : String) (delim : Char) : Except String (List (List Cell)) :=
  let records := (csvTokenize delim content.data).filter (fun r => ¬ r.isEmpty)
  match records with
  | [] => Except.error "No columns to parse from file"
  | first :: _ =>
    let ncols := first.length
    let kept := records.filter (fun r => r.length ≤ ncols)
    let rows := kept.map (fun r =>
      r.map naConvert ++ List.replicate (ncols - r.length) Cell.nan)
    Except.ok (inferColumns rows)

/-! ## Encoding Detector (`detect_encoding`, lines 20-28) -/

/-- `detect_encoding`: the chardet outcome is either an exception / failure
(`none`) or a detected label with a confidence score (modelled as an exact
rational).  The label is returned only on `confidence > 0.7`; otherwise, and
on any exception, the function returns `'utf-8'`.  Being a total function,
the model never raises, like the `try/except` in the source. -/
def detect_encoding (chardetResult : Option (String × ℚ)) : String :=
  match chardetResult with
  | some (enc, conf) => if (7 : ℚ) / 10 < conf then enc else "utf-8"
  | none => "utf-8"

/-! ## Content Classifier (`is_html_content`, lines 31-38) -/

/-- The table-indicating tokens of line 36. -/
def htmlTagTokens : List (List Char) :=
  [['<', 't', 'a', 'b', 'l', 'e'], ['<', 't', 'r'], ['<', 't', 'd'],
   ['<', 'h', 't', 'm', 'l'], ['<', '?', 'x', 'm', 'l']]

/-- Python `needle in hay` substring test. -/
def containsSub (needle hay : List Char) : Bool :=
  (findAnyIdx [needle] hay).isSome

/-! ## Conversion Orchestrator (`convert_file`, lines 85-148)

The per-file environment: the decoded text of the file (decoding uses
`errors='replace'` and never fails) plus the injectable failures of each
external effect.  `readError = some e` means every attempt to open/read the
file raises `e`; `toExcelError = some e` means `df.to_excel` raises `e`;
`comError = some e` means the office-automation body of
`convert_xlsx_to_xlsb` raises `e`. -/

structure Env where
  chardetResult : Option (String × ℚ)
  content : String
  readError : Option String
  toExcelError : Option String
  comError : Option String

/-- Outcome of one `convert_file` call: the returned message, plus whether
the two-stage xlsb export created its temporary `_temp.xlsx` artifact and
whether it removed it. -/
structure ConvResult where
  msg : String
  tempCreated : Bool
  tempRemoved : Bool
deriving DecidableEq, Repr

/-- `is_html_content` (lines 31-38): read the first 1000 characters, lower
them, and look for any table-indicating token; any read failure returns
`False`. -/
def is_html_content (env : Env) : Bool :=
  match env.readError with
  | some _ => false
  | none => htmlTagTokens.any (fun t => containsSub t (listLower (env.content.data.take 1000)))

/-- `convert_xlsx_to_xlsb` (lines 151-162): any office-automation failure is
re-raised as `RuntimeError('XLSB conversion failed: ...')`. -/
def convert_xlsx_to_xlsb (comError : Option String) : Except String Unit :=
  match comError with
  | some e => Except.error ("XLSB conversion failed: " ++ e)
  | none => Except.ok ()

def successMsg (nrows : Nat) (fmt : String) : String :=
  "Successfully converted " ++ toString nrows ++ " rows to " ++ pyUpper fmt

def noTablesMsg (filename : String) : String :=
  "No valid tables found in HTML: " ++ filename

def noDataMsg (filename : String) : String :=
  "No data found in " ++ filename

def textFailMsg (filename e : String) : String :=
  "Text parsing failed for " ++ filename ++ ": " ++ e

def unexpectedMsg (filename e : String) : String :=
  "Unexpected error processing " ++ filename ++ ": " ++ e

/-- Lines 136-145 of the source: write the DataFrame.  For `'xlsx'` a single
`to_excel`; otherwise the two-stage xlsb export: `to_excel` to the temporary
`_temp.xlsx`, the office re-save, then `os.remove` of the temporary file —
which is reached only when the re-save returned normally.  Exceptions land
in the `except` of line 147. -/
def saveStage (env : Env) (filename fmt : String) (df : List (List Cell)) : ConvResult :=
  if fmt = "xlsx" then
    match env.toExcelError with
    | some e => ⟨unexpectedMsg filename e, false, false⟩
    | none => ⟨successMsg df.length fmt, false, false⟩
  else
    match env.toExcelError with
    | some e => ⟨unexpectedMsg filename e, false, false⟩
    | none =>
      match convert_xlsx_to_xlsb env.comError with
      | Except.error e => ⟨unexpectedMsg filename e, true, false⟩
      | Except.ok _ => ⟨successMsg df.length fmt, true, true⟩

/-- `convert_file` (lines 85-148).  `csvParse` is the `pd.read_csv`
collaborator (instantiated with `read_csv` for concrete runs); the text path
wraps its read and parse in the inner `try/except` of lines 111-134, the
rest of the body in the outer one of lines 91-148. -/
def convert_file (csvParse : String → Char → Except String (List (List Cell)))
    (env : Env) (filename fmt : String) : ConvResult :=
  let _encoding := detect_encoding env.chardetResult
  if is_html_content env then
    match env.readError with
    | some e => ⟨unexpectedMsg filename e, false, false⟩
    | none =>
      match simple_html_table_to_df env.content with
      | none => ⟨noTablesMsg filename, false, false⟩
      | some df =>
        if df.isEmpty then ⟨noTablesMsg filename, false, false⟩
        else saveStage env filename fmt df
  else
    match env.readError with
    | some e => ⟨textFailMsg filename e, false, false⟩
    | none =>
      let delimiter := inferDelimiter env.content
      match csvParse env.content delimiter with
      | Except.error e => ⟨textFailMsg filename e, false, false⟩
      | Except.ok df =>
        if df.isEmpty then ⟨noDataMsg filename, false, false⟩
        else saveStage env filename fmt df

/-! ## Output path construction (lines 87-89 of the source) -/

/-- Index of the last `'.'` of `p`, if any. -/
def lastDotIdx (p : List Char) : Option Nat :=
  (findAnyIdx [['.']] p.reverse).map (fun q => p.length - 1 - q.1)

/-- The root part of `os.path.splitext` on a plain filename (no directory
separators, which is what `os.path.basename` hands over): split at the last
dot unless every character before it is itself a dot (a leading-dots name
such as `.bashrc` has no extension). -/
def splitextRoot (p : String) : String :=
  match lastDotIdx p.data with
  | none => p
  | some i =>
    if (p.data.take i).all (fun c => c = '.') then p
    else String.mk (p.data.take i)

/-- Lines 87-89: `output_path = os.path.join(output_folder,
f"{base_name}.{output_format}")`, with the joining separator written `/`
(the folder is separator-free in the claims, so only its fixed-prefix role
matters). -/
def output_path (folder filename fmt : String) : String :=
  folder ++ "/" ++ splitextRoot filename ++ "." ++ fmt


/-! ## Helper lemmas about `foldl Nat.max` -/

theorem le_foldl_max (l : List Nat) (a : Nat) : a ≤ l.foldl Nat.max a := by
  induction l generalizing a with
  | nil => simp
  | cons x t ih => exact le_trans (Nat.le_max_left a x) (ih (Nat.max a x))

theorem mem_le_foldl_max (l : List Nat) (a : Nat) : ∀ x ∈ l, x ≤ l.foldl Nat.max a := by
  induction l generalizing a with
  | nil => simp
  | cons y t ih =>
    intro x hx
    rcases List.mem_cons.mp hx with h | h
    · subst h
      exact le_trans (Nat.le_max_right a x) (le_foldl_max t _)
    · exact ih _ x h

theorem foldl_max_mem (l : List Nat) (a : Nat) :
    l.foldl Nat.max a = a ∨ l.foldl Nat.max a ∈ l := by
  induction l generalizing a with
  | nil => simp
  | cons y t ih =>
    simp only [List.foldl_cons]
    rcases ih (Nat.max a y) with h | h
    · rcases Nat.le_total a y with hle | hle
      · have hm : Nat.max a y = y := Nat.max_eq_right hle
        right
        rw [h, hm]
        exact List.mem_cons_self y t
      · have hm : Nat.max a y = a := Nat.max_eq_left hle
        left
        rw [h, hm]
    · right
      exact List.mem_cons_of_mem y h

theorem le_maxRowLen (rows : List (List String)) : ∀ r ∈ rows, r.length ≤ maxRowLen rows :=
  fun r hr => mem_le_foldl_max _ 0 _ (List.mem_map_of_mem List.length hr)

theorem exists_maxRowLen (rows : List (List String)) (h : rows ≠ []) :
    ∃ r ∈ rows, r.length = maxRowLen rows := by
  rcases foldl_max_mem (rows.map List.length) 0 with h0 | hmem
  · obtain ⟨r, hr⟩ := List.exists_mem_of_ne_nil rows h
    refine ⟨r, hr, ?_⟩
    have h1 : r.length ≤ maxRowLen rows := le_maxRowLen rows r hr
    have h2 : maxRowLen rows = 0 := h0
    omega
  · rcases List.mem_map.mp hmem with ⟨r, hr, hlen⟩
    exact ⟨r, hr, hlen⟩

/-- **C1.** For every list of rows fed to the Table Builder step of the
markup extractor (at least one row kept, so the list is non-empty), every
row of the built table has length equal to the maximum row length over the
input rows, and every cell added by padding is exactly the empty string:
the `i`-th built row agrees with the `i`-th input row on the input row's
positions and holds `""` on every added position. -/
theorem C1_table_builder_padding (rows : List (List String)) (h : rows ≠ []) :
    (∀ r ∈ rows, r.length ≤ maxRowLen rows) ∧
    (∃ r ∈ rows, r.length = maxRowLen rows) ∧
    (padRows rows).length = rows.length ∧
    ∀ (i : Nat) (r : List String), rows[i]? = some r →
      (padRows rows)[i]? = some (padRow (maxRowLen rows) r) ∧
      (padRow (maxRowLen rows) r).length = maxRowLen rows ∧
      (∀ j, j < r.length → (padRow (maxRowLen rows) r)[j]? = r[j]?) ∧
      (∀ j, r.length ≤ j → j < maxRowLen rows →
        (padRow (maxRowLen rows) r)[j]? = some "") := by
  refine ⟨le_maxRowLen rows, exists_maxRowLen rows h, by simp [padRows], ?_⟩
  intro i r hir
  have hrmem : r ∈ rows := List.getElem?_mem hir
  have hrle : r.length ≤ maxRowLen rows := le_maxRowLen rows r hrmem
  refine ⟨?_, ?_, ?_, ?_⟩
  · rw [padRows, List.getElem?_map, hir]
    rfl
  · simp only [padRow, List.length_append, List.length_replicate]
    omega
  · intro j hj
    exact List.getElem?_append_left hj
  · intro j h1 h2
    rw [padRow, List.getElem?_append_right h1, List.getElem?_replicate,
      if_pos (by omega)]

/-- Witness for C1 at the concrete input `[["a"], ["b", "c"]]`. -/
theorem C1_table_builder_padding_witness :
    ∃ r ∈ [["a"], ["b", "c"]], r.length = maxRowLen [["a"], ["b", "c"]] :=
  (C1_table_builder_padding [["a"], ["b", "c"]] (by decide)).2.1


/-! ## General attainment lemmas for `foldl Nat.max` over a mapped list -/

theorem le_foldl_max_map {α : Type} (f : α → Nat) (l : List α) :
    ∀ x ∈ l, f x ≤ (l.map f).foldl Nat.max 0 :=
  fun x hx => mem_le_foldl_max _ 0 _ (List.mem_map_of_mem f hx)

theorem exists_foldl_max_map {α : Type} (f : α → Nat) (l : List α) (h : l ≠ []) :
    ∃ x ∈ l, f x = (l.map f).foldl Nat.max 0 := by
  rcases foldl_max_mem (l.map f) 0 with h0 | hmem
  · obtain ⟨x, hx⟩ := List.exists_mem_of_ne_nil l h
    refine ⟨x, hx, ?_⟩
    have h1 : f x ≤ (l.map f).foldl Nat.max 0 := le_foldl_max_map f l x hx
    omega
  · rcases List.mem_map.mp hmem with ⟨x, hx, hfx⟩
    exact ⟨x, hx, hfx⟩

theorem foldl_max_map_eq_of_const {α : Type} (f : α → Nat) (l : List α) (w : Nat)
    (h : l ≠ []) (hall : ∀ x ∈ l, f x = w) : (l.map f).foldl Nat.max 0 = w := by
  obtain ⟨x, hx, hfx⟩ := exists_foldl_max_map f l h
  rw [← hfx, hall x hx]

/-! ## Structure of the kept tables -/

theorem padRows_mem_length (rows : List (List String)) :
    ∀ p ∈ padRows rows, p.length = maxRowLen rows := by
  intro p hp
  rcases List.mem_map.mp hp with ⟨r, hr, rfl⟩
  have := le_maxRowLen rows r hr
  simp only [padRow, List.length_append, List.length_replicate]
  omega

/-- Every table kept by the extractor is non-empty and rectangular: each of
its rows has exactly the table's width. -/
theorem keptTablesOf_spec (content : String) :
    ∀ t ∈ keptTablesOf content, t ≠ [] ∧ ∀ r ∈ t, r.length = tableWidth t := by
  intro t ht
  rw [keptTablesOf, List.mem_filterMap] at ht
  obtain ⟨span, _, hf⟩ := ht
  simp only at hf
  by_cases hrows : (tableRows span).isEmpty
  · rw [if_pos hrows] at hf
    exact absurd hf (by simp)
  · rw [if_neg hrows] at hf
    obtain rfl : (padRows (tableRows span)).map (List.map Cell.str) = t := by
      exact Option.some.inj hf
    have hne : tableRows span ≠ [] := fun hz => hrows (by rw [hz]; rfl)
    have hlen : ∀ r ∈ (padRows (tableRows span)).map (List.map Cell.str),
        r.length = maxRowLen (tableRows span) := by
      intro r hr
      rcases List.mem_map.mp hr with ⟨p, hp, rfl⟩
      rw [List.length_map]
      exact padRows_mem_length _ p hp
    have htne : (padRows (tableRows span)).map (List.map Cell.str) ≠ [] := by
      simp [padRows, hne]
    have hw : tableWidth ((padRows (tableRows span)).map (List.map Cell.str)) =
        maxRowLen (tableRows span) :=
      foldl_max_map_eq_of_const List.length _ _ htne hlen
    exact ⟨htne, fun r hr => by rw [hw]; exact hlen r hr⟩

/-- **C2 (amended).** For every markup document with at least two kept
tables, the extractor's combined result concatenates all kept tables' rows
(per-table order, then document order) into one table whose column count is
the maximum width across all kept tables; rows from narrower tables are
extended at concatenation time with the missing-value marker `NaN` — not
with empty-string cells, which is what the original claim asserted. -/
theorem C2_concat_nan_padding (content : String)
    (h2 : 2 ≤ (keptTablesOf content).length) :
    simple_html_table_to_df content =
      some (((keptTablesOf content).map (fun t =>
        t.map (fun r =>
          r ++ List.replicate (concatWidth (keptTablesOf content) - r.length)
            Cell.nan))).flatten) ∧
    (∀ t ∈ keptTablesOf content, tableWidth t ≤ concatWidth (keptTablesOf content)) ∧
    (∃ t ∈ keptTablesOf content, tableWidth t = concatWidth (keptTablesOf content)) ∧
    (∀ t ∈ keptTablesOf content, ∀ r ∈ t, r.length = tableWidth t) ∧
    (∀ r ∈ pdConcat (keptTablesOf content),
      r.length = concatWidth (keptTablesOf content)) := by
  have hne : keptTablesOf content ≠ [] := by
    intro hz
    rw [hz] at h2
    exact absurd h2 (by decide)
  refine ⟨?_, ?_, ?_, ?_, ?_⟩
  · rw [simple_html_table_to_df]
    simp only [List.isEmpty_iff, hne, if_neg, pdConcat]
    exact if_neg (by simpa [List.isEmpty_iff] using hne)
  · exact le_foldl_max_map tableWidth _
  · exact exists_foldl_max_map tableWidth _ hne
  · exact fun t ht => (keptTablesOf_spec content t ht).2
  · intro r hr
    rw [pdConcat] at hr
    rcases List.mem_flatten.mp hr with ⟨rs, hrs, hrmem⟩
    rcases List.mem_map.mp hrs with ⟨t, ht, rfl⟩
    rcases List.mem_map.mp hrmem with ⟨r0, hr0, rfl⟩
    have h1 : r0.length = tableWidth t := (keptTablesOf_spec content t ht).2 r0 hr0
    have h2 : tableWidth t ≤ concatWidth (keptTablesOf content) :=
      le_foldl_max_map tableWidth _ t ht
    simp only [List.length_append, List.length_replicate]
    omega

/-- The two-table document of the counterexample. -/
def twoTableDoc : String :=
  "<table><tr><td>X</td><td>Y</td></tr></table><table><tr><td>Z</td></tr></table>"

/-- **C2 (counterexample).** On a document with a width-2 table and a
width-1 table, the combined result's padded cell is `NaN`, not the empty
string claimed: the claimed table (second row `[Z, ""]`) is not the output,
the actual output's second row is `[Z, NaN]`. -/
theorem C2_concat_padding_counterexample :
    simple_html_table_to_df twoTableDoc =
      some [[Cell.str "X", Cell.str "Y"], [Cell.str "Z", Cell.nan]] ∧
    simple_html_table_to_df twoTableDoc ≠
      some [[Cell.str "X", Cell.str "Y"], [Cell.str "Z", Cell.str ""]] := by
  refine ⟨by decide, ?_⟩
  intro hcon
  have h1 : simple_html_table_to_df twoTableDoc =
      some [[Cell.str "X", Cell.str "Y"], [Cell.str "Z", Cell.nan]] := by decide
  rw [h1] at hcon
  exact absurd (Option.some.inj hcon) (by decide)

/-- Witness for C2 at the two-table document. -/
theorem C2_concat_nan_padding_witness :
    ∃ t ∈ keptTablesOf twoTableDoc, tableWidth t = concatWidth (keptTablesOf twoTableDoc) :=
  (C2_concat_nan_padding twoTableDoc (by decide)).2.2.1


/-! ## C3: the end-to-end delimited-text scenario -/

/-- The concrete delimited input of the claim. -/
def csvDemoInput : String := "a,b,c\n1,2\n,,,"

/-- **C3 (amended).** On `"a,b,c\n1,2\n,,,"` the pipeline chooses comma and
the tokenizer splits the text into the rows `[a,b,c]`, `[1,2]`, `[,,,]` as
claimed — but `pd.read_csv` then fixes the column count at 3 (the first
record's width), skips the four-field record as a bad line
(`on_bad_lines='skip'`), parses empty fields as `NaN`, and pads the short
row with `NaN`, producing the 2-by-3 table `[[a,b,c],[1,2,NaN]]` rather
than the claimed 3-by-4 empty-string-padded table. -/
theorem C3_end_to_end_actual :
    inferDelimiter csvDemoInput = ',' ∧
    csvTokenize ',' csvDemoInput.data = [["a", "b", "c"], ["1", "2"], ["", "", "", ""]] ∧
    read_csv csvDemoInput ',' =
      Except.ok [[Cell.str "a", Cell.str "b", Cell.str "c"],
                 [Cell.str "1", Cell.str "2", Cell.nan]] :=
  ⟨by decide, by decide, rfl⟩

/-- **C3 (counterexample).** The pipeline's result on the claim's input is
not the claimed padded table `[[a,b,c,""],[1,2,"",""],["","","",""]]`. -/
theorem C3_end_to_end_counterexample :
    read_csv csvDemoInput (inferDelimiter csvDemoInput) ≠
      Except.ok [[Cell.str "a", Cell.str "b", Cell.str "c", Cell.str ""],
                 [Cell.str "1", Cell.str "2", Cell.str "", Cell.str ""],
                 [Cell.str "", Cell.str "", Cell.str "", Cell.str ""]] := by
  intro hcon
  have hok : read_csv csvDemoInput (inferDelimiter csvDemoInput) =
      Except.ok [[Cell.str "a", Cell.str "b", Cell.str "c"],
                 [Cell.str "1", Cell.str "2", Cell.nan]] := rfl
  rw [hok] at hcon
  injection hcon with h
  exact absurd h (by decide)

/-! ## C4: the encoding-detection threshold -/

/-- **C4 (counterexample).** At confidence exactly `0.7` — which is "not
below 0.7" — the detector returns `'utf-8'`, not the detected label: the
comparison on line 26 is strict. -/
theorem C4_threshold_counterexample :
    detect_encoding (some ("ascii", 7 / 10)) = "utf-8" ∧
    (7 : ℚ) / 10 ≤ 7 / 10 ∧ ("utf-8" : String) ≠ "ascii" := by
  refine ⟨?_, le_refl _, by decide⟩
  simp only [detect_encoding]
  rw [if_neg (lt_irrefl _)]

/-- **C4 (amended).** The detector returns the detected label exactly when
the confidence is strictly above `0.7`; at confidence `≤ 0.7`, or when
detection fails (exception, empty buffer — the `none` outcome), it returns
`'utf-8'`.  It never raises: the model is a total function, mirroring the
`try/except` of lines 22-28. -/
theorem C4_detect_encoding_amended (enc : String) (conf : ℚ) :
    ((7 : ℚ) / 10 < conf → detect_encoding (some (enc, conf)) = enc) ∧
    (conf ≤ (7 : ℚ) / 10 → detect_encoding (some (enc, conf)) = "utf-8") ∧
    detect_encoding none = "utf-8" := by
  refine ⟨fun h => ?_, fun h => ?_, rfl⟩
  · simp only [detect_encoding]
    rw [if_pos h]
  · simp only [detect_encoding]
    rw [if_neg (not_lt.mpr h)]

/-- Witness for C4 at confidences `0.8` and `0.5`. -/
theorem C4_detect_encoding_amended_witness :
    detect_encoding (some ("latin-1", 4 / 5)) = "latin-1" ∧
    detect_encoding (some ("ascii", 1 / 2)) = "utf-8" :=
  ⟨(C4_detect_encoding_amended "latin-1" (4 / 5)).1 (by norm_num),
   (C4_detect_encoding_amended "ascii" (1 / 2)).2.1 (by norm_num)⟩


/-! ## C5: delimiter inference -/

theorem delimCount_congr (c1 c2 : String)
    (h : (splitOnNl c1.data).take 100 = (splitOnNl c2.data).take 100) :
    ∀ d, delimCount c1 d = delimCount c2 d := by
  intro d
  rw [delimCount, delimCount, h]

/-- **C5.** Delimiter inference over the first 100 lines: the chosen
delimiter is a candidate whose total count is maximal; any candidate with
the same count sits no earlier in the fixed order comma, semicolon, tab,
pipe; comma is chosen whenever it strictly outnumbers the other three; and
the choice depends only on the first 100 lines, regardless of any text
beyond them. -/
theorem C5_delimiter_inference (content : String) :
    inferDelimiter content ∈ delimCandidates ∧
    (∀ d ∈ delimCandidates,
      delimCount content d ≤ delimCount content (inferDelimiter content)) ∧
    (∀ d ∈ delimCandidates,
      delimCount content d = delimCount content (inferDelimiter content) →
      delimCandidates.indexOf (inferDelimiter content) ≤ delimCandidates.indexOf d) ∧
    ((delimCount content ';' < delimCount content ',' ∧
      delimCount content '\t' < delimCount content ',' ∧
      delimCount content '|' < delimCount content ',') →
      inferDelimiter content = ',') ∧
    (∀ content2 : String,
      (splitOnNl content.data).take 100 = (splitOnNl content2.data).take 100 →
      inferDelimiter content = inferDelimiter content2) := by
  have hmem : ∀ x : Char, x ∈ delimCandidates ↔
      x = ',' ∨ x = ';' ∨ x = '\t' ∨ x = '|' := by
    intro x
    simp [delimCandidates]
  refine ⟨?_, ?_, ?_, ?_, ?_⟩
  · simp only [inferDelimiter, List.foldl_cons, List.foldl_nil]
    split_ifs <;> decide
  · intro d hd
    simp only [inferDelimiter, List.foldl_cons, List.foldl_nil]
    rcases (hmem d).mp hd with rfl | rfl | rfl | rfl <;>
      split_ifs <;> omega
  · intro d hd heq
    revert heq
    simp only [inferDelimiter, List.foldl_cons, List.foldl_nil]
    rcases (hmem d).mp hd with rfl | rfl | rfl | rfl <;>
      split_ifs <;> intro heq <;> first | decide | (exact absurd heq (by omega))
  · intro hdom
    obtain ⟨hb, hc, hd⟩ := hdom
    simp only [inferDelimiter, List.foldl_cons, List.foldl_nil]
    split_ifs <;> first | rfl | (exfalso; omega)
  · intro content2 hlines
    have hc := delimCount_congr content content2 hlines
    simp only [inferDelimiter, hc]

/-- Witness for C5 at `"a,b,c"` (comma strictly outnumbers; semicolon count
is bounded by the chosen comma's). -/
theorem C5_delimiter_inference_witness :
    inferDelimiter "a,b,c" = ',' ∧
    delimCount "a,b,c" ';' ≤ delimCount "a,b,c" (inferDelimiter "a,b,c") := by
  have h := C5_delimiter_inference "a,b,c"
  exact ⟨h.2.2.2.1 (by refine ⟨?_, ?_, ?_⟩ <;> decide), h.2.1 ';' (by decide)⟩


/-! ## C6: totality of the orchestrator -/

/-- The outcome taxonomy of `convert_file`: one of the five returned
message shapes. -/
def IsOutcome (filename fmt msg : String) : Prop :=
  (∃ n, msg = successMsg n fmt) ∨
  msg = noTablesMsg filename ∨
  msg = noDataMsg filename ∨
  (∃ e, msg = textFailMsg filename e) ∨
  (∃ e, msg = unexpectedMsg filename e)

/-- **C6.** The per-file conversion orchestrator is total: for every
environment (file content and any combination of step failures), every
collaborator parse function, and every filename and output format, the
call returns — never raises past its boundary — and its message is exactly
one of the outcome shapes.  (The statements before the `try` on lines
87-89 are non-raising string operations, and every fallible step inside
feeds one of the two `except` handlers.) -/
theorem C6_orchestrator_total
    (csvParse : String → Char → Except String (List (List Cell)))
    (env : Env) (filename fmt : String) :
    IsOutcome filename fmt (convert_file csvParse env filename fmt).msg := by
  unfold IsOutcome convert_file saveStage
  dsimp only
  repeat' split
  all_goals dsimp only
  all_goals first
    | exact Or.inl ⟨_, rfl⟩
    | exact Or.inr (Or.inl rfl)
    | exact Or.inr (Or.inr (Or.inl rfl))
    | exact Or.inr (Or.inr (Or.inr (Or.inl ⟨_, rfl⟩)))
    | exact Or.inr (Or.inr (Or.inr (Or.inr ⟨_, rfl⟩)))

/-! ## C9: the two no-content outcomes -/

theorem is_html_readError (env : Env) (h : is_html_content env = true) :
    env.readError = none := by
  rw [is_html_content] at h
  cases henv : env.readError with
  | some e =>
    rw [henv] at h
    exact absurd h (by simp)
  | none => rfl

/-- **C9.** A file classified as markup whose text has zero `<table>` spans
yields the "no tables found" outcome, and a file classified as delimited
text whose parse yields zero rows yields the "no data found" outcome. -/
theorem C9_no_tables_no_data
    (csvParse : String → Char → Except String (List (List Cell)))
    (env : Env) (filename fmt : String) :
    (is_html_content env = true → tableSpans (unescape env.content.data) = [] →
      (convert_file csvParse env filename fmt).msg = noTablesMsg filename) ∧
    (is_html_content env = false → env.readError = none →
      csvParse env.content (inferDelimiter env.content) = Except.ok [] →
      (convert_file csvParse env filename fmt).msg = noDataMsg filename) := by
  constructor
  · intro hh hspans
    have hre := is_html_readError env hh
    have hkept : keptTablesOf env.content = [] := by
      rw [keptTablesOf, hspans]
      rfl
    simp [convert_file, hh, hre, simple_html_table_to_df, hkept]
  · intro hh hre hcsv
    simp [convert_file, hh, hre, hcsv]

/-- Witness for C9: a markup-classified file with no table span, and a
delimited file whose parse returns zero rows. -/
theorem C9_no_tables_no_data_witness :
    (convert_file (fun _ _ => Except.ok []) ⟨none, "<html>x", none, none, none⟩
      "f.htm" "xlsx").msg = noTablesMsg "f.htm" ∧
    (convert_file (fun _ _ => Except.ok []) ⟨none, "x", none, none, none⟩
      "f.txt" "xlsx").msg = noDataMsg "f.txt" :=
  ⟨(C9_no_tables_no_data (fun _ _ => Except.ok [])
      ⟨none, "<html>x", none, none, none⟩ "f.htm" "xlsx").1 (by decide) (by decide),
   (C9_no_tables_no_data (fun _ _ => Except.ok [])
      ⟨none, "x", none, none, none⟩ "f.txt" "xlsx").2 (by decide) rfl rfl⟩

/-! ## C7: the temporary artifact of the two-stage xlsb export -/

/-- Environment of the failing run: a delimited file `"a,b"`, a working
writer, and an office-automation step that raises. -/
def envComFailure : Env := ⟨none, "a,b", none, none, some "COM failure"⟩

/-- **C7 (code bug).** In the two-stage xlsb export the temporary
`_temp.xlsx` artifact is removed only on the success path: when the
legacy re-save raises, the exception skips `os.remove` (line 143) and lands
in the handler of line 147, so the artifact is created but never removed —
contradicting the required release-on-both-paths discipline.  The second
conjunct shows the success path for the same file does remove it. -/
theorem C7_temp_artifact_leak :
    convert_file read_csv envComFailure "d.txt" "xlsb" =
      ⟨unexpectedMsg "d.txt" "XLSB conversion failed: COM failure", true, false⟩ ∧
    convert_file read_csv ⟨none, "a,b", none, none, none⟩ "d.txt" "xlsb" =
      ⟨successMsg 1 "xlsb", true, true⟩ :=
  ⟨by decide, by decide⟩

/-! ## C8: the input-name to output-path mapping -/

/-- **C8 (counterexample).** The mapping from input filename to output path
is not injective: two distinct filenames sharing a stem collide. -/
theorem C8_output_collision_counterexample :
    ("data.csv" : String) ≠ "data.txt" ∧
    output_path "out" "data.csv" "xlsx" = output_path "out" "data.txt" "xlsx" :=
  ⟨by decide, by decide⟩

/-- **C8 (amended).** The mapping is injective on stems: two input
filenames with distinct `splitext` roots map to distinct output paths (for
the same output folder and format). -/
theorem C8_output_path_injective_on_stems (folder n1 n2 fmt : String)
    (h : splitextRoot n1 ≠ splitextRoot n2) :
    output_path folder n1 fmt ≠ output_path folder n2 fmt := by
  intro hcon
  apply h
  have hd : (output_path folder n1 fmt).data = (output_path folder n2 fmt).data := by
    rw [hcon]
  simp only [output_path, String.data_append] at hd
  have h1 := List.append_cancel_right hd
  have h2 := List.append_cancel_right h1
  have h3 := List.append_cancel_left h2
  exact String.ext h3

/-- Witness for C8 at two names with distinct stems. -/
theorem C8_output_path_injective_on_stems_witness :
    output_path "out" "a.csv" "xlsx" ≠ output_path "out" "b.csv" "xlsx" :=
  C8_output_path_injective_on_stems "out" "a.csv" "b.csv" "xlsx" (by decide)

/-! ## C10: delimiter counting is not quote-aware -/

theorem pyStrCountFuel_single (d : Char) :
    ∀ fuel hay, hay.length ≤ fuel →
      pyStrCountFuel [d] fuel hay = (hay.filter (fun c => c = d)).length := by
  intro fuel
  induction fuel with
  | zero =>
    intro hay h
    have hz : hay = [] := List.length_eq_zero.mp (Nat.le_zero.mp h)
    subst hz
    rfl
  | succ n ih =>
    intro hay h
    cases hay with
    | nil => rfl
    | cons c t =>
      by_cases hcd : d = c
      · subst hcd
        rw [pyStrCountFuel, if_pos ⟨by simp, by simp [List.isPrefixOf], by simp⟩]
        show 1 + pyStrCountFuel [d] n t = _
        rw [ih t (by simpa using h)]
        rw [List.filter_cons_of_pos (by simp)]
        simp [Nat.add_comm]
      · rw [pyStrCountFuel, if_neg (fun hcontra => hcd (by
          have hpre := hcontra.2.1
          simp [List.isPrefixOf] at hpre
          exact hpre))]
        show pyStrCountFuel [d] n t = _
        rw [ih t (by simpa using h)]
        rw [List.filter_cons_of_neg (by simpa using fun hx : c = d => hcd hx.symm)]

/-- `line.count(delim)` equals the number of characters of the line equal to
the delimiter — independent of where they sit, in particular inside quoted
fields. -/
theorem pyStrCount_single (d : Char) (line : List Char) :
    pyStrCount [d] line = (line.filter (fun c => c = d)).length :=
  pyStrCountFuel_single d (line.length + 1) line (by omega)

/-- One-line inputs differing only in a quoted field's contents. -/
def quotedProbe (q : String) : String := "\"" ++ q ++ "\"|b"

/-- **C10.** Delimiter occurrence counting is not quote-aware: every
character equal to the candidate counts, quoted or not (first conjunct);
hence the quoted field contents alone flip the chosen delimiter between
comma and pipe on the two probe inputs — even though the subsequent row
split does honor conventional quoting, keeping the quoted commas inside one
field (last conjunct). -/
theorem C10_quote_blind_counting :
    (∀ (d : Char) (line : List Char),
      pyStrCount [d] line = (line.filter (fun c => c = d)).length) ∧
    inferDelimiter (quotedProbe ",,,,") = ',' ∧
    inferDelimiter (quotedProbe "") = '|' ∧
    csvTokenize '|' (quotedProbe ",,,,").data = [[",,,,", "b"]] :=
  ⟨pyStrCount_single, by decide, by decide, by decide⟩

end Converter
